import Mathlib

set_option maxHeartbeats 1000000
set_option maxRecDepth 4000

/-!
Shallow embedding of the EduAgent AI tutor backend core.

The embedding translates, definition by definition, the TypeScript/JavaScript
source of the repository:

* `Message` entity (`backend/src/entities/Message.ts`): construction-time
  content validation, trimming, JSON (de)serialization.
* `Conversation` entity (`backend/src/entities/Conversation.ts`): bounded
  message log, `addMessage`, `getRecentMessages`, `getGeminiFormat`.
* `ChatUseCase` (`backend/src/usecases/ChatUseCase.ts`): request validation,
  conversation restoration, the two persona calls and the surrounding
  error-wrapping catch.
* `GeminiService.generateResponse` (`backend/src/frameworks/gemini/GeminiService.ts`):
  the retry loop with its non-retryable-error classification.
* the legacy combined-call parser (`agentLogic.js` / `orchestrateAgents`):
  the two regular-expression extractions and the fallback strings.

Modelling conventions: JavaScript strings are Lean `String`s (the verified
properties only exercise ASCII data, where JS UTF-16 `length`/`trim`/
`toLowerCase` agree with Lean `String.length`/character-list trimming/
`String.toLower`); `Date` instants are `Nat` epoch milliseconds, and the
exact `Date.toISOString`/`new Date(iso)` round-trip is modelled as the
identity on the instant; thrown exceptions are values of the `JsError`
inductive type, and a `try`/`catch` becomes a `match` on `Except`.
The remote Gemini SDK call is an oracle parameter, since its outcome is
external input to the code under verification.
-/

namespace EduAgent

/-- Character-list trimming, mirroring JavaScript `String.prototype.trim`:
drop leading whitespace, then drop trailing whitespace. -/
def trimChars (l : List Char) : List Char :=
  ((l.dropWhile Char.isWhitespace).reverse.dropWhile Char.isWhitespace).reverse

/-- JS `s.trim()` on Lean strings. -/
def jsTrim (s : String) : String :=
  String.mk (trimChars s.data)

/-- JS `s.toLowerCase()`: character-wise basic-latin lowercasing (all the
verified properties exercise ASCII data only). -/
def jsToLower (s : String) : String :=
  String.mk (s.data.map Char.toLower)

/-- The `MessageRole` enum from `shared/types` (values fixed by the validation
middleware's accepted set and the spec: user, assistant, system). -/
inductive MessageRole where
  | user
  | assistant
  | system
deriving DecidableEq, Repr

/-- The `AgentPersona` enum from `shared/types` (string values `explainer` /
`example_provider`, as declared in the frontend copy of the enum). -/
inductive AgentPersona where
  | explainer
  | example_provider
deriving DecidableEq, Repr

/-- The string value of an `AgentPersona`, as interpolated into messages. -/
def AgentPersona.str : AgentPersona → String
  | .explainer => "explainer"
  | .example_provider => "example_provider"

/-- Thrown JavaScript exception values, as the code under verification
distinguishes them: `ValidationError` and `GeminiApiError` (the two
`AppError` subclasses the use case tests with `instanceof`), and every other
`Error`.  `geminiApi` carries the optional original error (`GeminiApiError`'s
second constructor argument). -/
inductive JsError where
  | validation (msg : String)
  | geminiApi (msg : String) (cause : Option JsError)
  | error (msg : String)

/-- JS `error.message`. -/
def JsError.message : JsError → String
  | .validation m => m
  | .geminiApi m _ => m
  | .error m => m

/-- Returns `true` exactly for the two `AppError` subclasses the use case rethrows
unchanged (`error instanceof ValidationError || error instanceof GeminiApiError`). -/
def JsError.isValidationOrGeminiApi : JsError → Bool
  | .validation _ => true
  | .geminiApi _ _ => true
  | .error _ => false

/-- The `Except.isOk` observer, as a plain Boolean. -/
def exceptIsOk : Except ε α → Bool
  | .ok _ => true
  | .error _ => false

/-- The `Message` entity (`Message.ts`): role, trimmed content, creation
instant (epoch milliseconds) and optional agent persona.  All fields are
`readonly` in the source, so the entity is a plain immutable record here. -/
structure Message where
  role : MessageRole
  content : String
  timestamp : Nat
  agentPersona : Option AgentPersona
deriving DecidableEq, Repr

/-- Maximum length used by `Message.validateContent` (`const maxLength = 10000`). -/
def Message.maxLength : Nat := 10000

/-- Validation `Message.validateContent`: rejects the empty string (`!content` for a
string argument), whitespace-only content, and trimmed content longer than
`maxLength`; throws plain `Error`s. -/
def Message.validateContent (content : String) : Except JsError Unit :=
  if content = "" then
    .error (.error "Message content must be a non-empty string")
  else
    let trimmed := jsTrim content
    if trimmed.length = 0 then
      .error (.error "Message content cannot be empty")
    else if trimmed.length > Message.maxLength then
      .error (.error "Message content exceeds maximum length of 10000 characters")
    else
      .ok ()

/-- The `Message` constructor: validates, then stores the trimmed content.
A throwing JS constructor becomes an `Except`-returning builder. -/
def Message.create (role : MessageRole) (content : String) (timestamp : Nat)
    (agentPersona : Option AgentPersona) : Except JsError Message :=
  match Message.validateContent content with
  | .error e => .error e
  | .ok _ => .ok { role := role, content := jsTrim content,
                   timestamp := timestamp, agentPersona := agentPersona }

/-- The plain object produced by `Message.toJSON` and consumed by
`Message.fromJSON`.  The `timestamp` field holds the serialized instant
(`Date.toISOString()` and re-parsing are modelled as the identity on the
epoch-millisecond instant); it is optional because `fromJSON` accepts data
without a timestamp. -/
structure MessageJSON where
  role : MessageRole
  content : String
  timestamp : Option Nat
  agentPersona : Option AgentPersona
deriving DecidableEq, Repr

/-- Serialization `Message.toJSON`: the `agentPersona` key is present exactly when the
message has one (the source spreads `...(this._agentPersona && {...})`). -/
def Message.toJSON (m : Message) : MessageJSON :=
  { role := m.role, content := m.content,
    timestamp := some m.timestamp, agentPersona := m.agentPersona }

/-- Deserialization `Message.fromJSON`: defaults a missing timestamp to `new Date()`
(the caller's current instant `now`), then runs the validating constructor. -/
def Message.fromJSON (data : MessageJSON) (now : Nat) : Except JsError Message :=
  Message.create data.role data.content (data.timestamp.getD now) data.agentPersona

/-- The `Conversation` entity (`Conversation.ts`).  The `Date`-valued
bookkeeping fields (`createdAt`, `updatedAt`) and `userId` are omitted: no
verified operation reads them. -/
structure Conversation where
  messages : List Message
  subject : Option String
  topic : Option String
deriving DecidableEq, Repr

/-- Capacity used by `validateMessageAddition` (`const maxHistory = 100`). -/
def Conversation.maxHistory : Nat := 100

/-- Append `Conversation.addMessage`: the validation throws before the
`push`, so on failure the conversation value is returned unchanged next to
the thrown error; on success the message is appended at the end. -/
def Conversation.addMessage (c : Conversation) (m : Message) :
    Conversation × Option JsError :=
  if c.messages.length ≥ Conversation.maxHistory then
    (c, some (.error "Conversation history limit of 100 messages reached"))
  else
    ({ c with messages := c.messages ++ [m] }, none)

/-- Query `Conversation.getRecentMessages(count)`, i.e. `messages.slice(-count)`.
JS `slice` clamps the negative start index at `0`, and `-0` is `0`, so
`count = 0` yields the whole array and `count > 0` yields the last
`count` elements (`drop (length - count)` with truncated subtraction). -/
def Conversation.getRecentMessages (c : Conversation) (count : Nat) : List Message :=
  if count = 0 then c.messages
  else c.messages.drop (c.messages.length - count)

/-- One entry of the Gemini request history: `{ role, parts: [{ text }] }`
with the part texts flattened to the list of their strings. -/
structure GeminiTurn where
  role : String
  parts : List String
deriving DecidableEq, Repr

/-- Translation `Conversation.getGeminiFormat`: maps the `user` role to `"user"` and
every other role to `"model"`. -/
def Conversation.getGeminiFormat (c : Conversation) : List GeminiTurn :=
  c.messages.map fun msg =>
    { role := if msg.role = MessageRole.user then "user" else "model",
      parts := [msg.content] }

/-- Index of the first occurrence of `pat` in a character list (the search a
JS regex engine performs for a literal pattern, and `String.prototype.includes`
when only the Boolean is kept). -/
def findSub (pat : List Char) : List Char → Option Nat
  | [] => if pat.isEmpty then some 0 else none
  | c :: rest =>
    if pat.isPrefixOf (c :: rest) then some 0
    else (findSub pat rest).map Nat.succ

/-- JS `s.includes(pat)`. -/
def strIncludes (s pat : String) : Bool :=
  (findSub pat.data s.data).isSome

/-- The retry budget `GeminiService.maxRetries`. -/
def GeminiService.maxRetries : Nat := 3

/-- Pattern list of `GeminiService.isNonRetryableError`, in source order. -/
def GeminiService.nonRetryablePatterns : List String :=
  ["api key", "authentication", "unauthorized", "quota", "billing", "invalid"]

/-- Classification `GeminiService.isNonRetryableError`: lowercases the message and tests
whether any fixed pattern occurs in it.  (The `error instanceof Error` guard
is vacuous here: every modelled thrown value is an `Error`.) -/
def GeminiService.isNonRetryableError (e : JsError) : Bool :=
  GeminiService.nonRetryablePatterns.any fun pattern =>
    strIncludes (jsToLower e.message) pattern

/-- The retry loop of `GeminiService.generateResponse`.  The remote SDK call
of attempt number `attempt` (both the `startChat`/`sendMessage` path and the
plain `generateContent` path return the response text or throw) is the oracle
`api attempt`; the backoff delay is invisible to the result.  The `fuel`
argument counts the attempts still allowed (`maxRetries - attempt + 1`), and
the returned `Nat` counts the oracle invocations actually performed. -/
def GeminiService.generateResponseAux (api : Nat → Except JsError String) :
    Nat → Nat → Option JsError → Except JsError String × Nat
  | 0, _, lastError =>
    (.error (.geminiApi
      ("Failed to generate response after 3 attempts: " ++
        (match lastError with
         | some e => if e.message = "" then "Unknown error" else e.message
         | none => "Unknown error"))
      lastError), 0)
  | fuel + 1, attempt, _ =>
    match api attempt with
    | .ok text => (.ok text, 1)
    | .error err =>
      if GeminiService.isNonRetryableError err then
        (.error (.geminiApi ("Non-retryable error: " ++ err.message) (some err)), 1)
      else
        let r := GeminiService.generateResponseAux api fuel (attempt + 1) (some err)
        (r.1, r.2 + 1)

/-- Entry point `GeminiService.generateResponse`: up to `maxRetries` attempts starting at
attempt 1 with no previous error. -/
def GeminiService.generateResponse (api : Nat → Except JsError String) :
    Except JsError String × Nat :=
  GeminiService.generateResponseAux api GeminiService.maxRetries 1 none

/-- The `ChatRequest` shape from `shared/types`, as consumed by `ChatUseCase`. -/
structure ChatRequest where
  message : String
  conversationHistory : Option (List MessageJSON)
  subject : Option String
  topic : Option String

/-- The `ChatResponse` shape: response text, persona tag, creation instant. -/
structure ChatResponse where
  message : String
  agentPersona : AgentPersona
  timestamp : Nat
deriving DecidableEq, Repr

/-- Validation `ChatUseCase.validateRequest`.  The `typeof` guards are vacuous in the
typed embedding; `!request.message` is the empty-string test. -/
def ChatUseCase.validateRequest (request : ChatRequest) : Except JsError Unit :=
  if request.message = "" then
    .error (.validation "Invalid request: message is required and must be a string")
  else
    let trimmedMessage := jsTrim request.message
    if trimmedMessage.length = 0 then
      .error (.validation "Invalid request: message cannot be empty")
    else if trimmedMessage.length > 5000 then
      .error (.validation "Invalid request: message exceeds maximum length of 5000 characters")
    else
      .ok ()

/-- Restoration `ChatUseCase.createConversation`: restores each history entry through
`Message.fromJSON`; a throw from any entry aborts the whole restoration. -/
def ChatUseCase.createConversation (request : ChatRequest) (now : Nat) :
    Except JsError Conversation := do
  let messages ← match request.conversationHistory with
    | some hist => hist.mapM fun msgJson => Message.fromJSON msgJson now
    | none => pure []
  pure { messages := messages, subject := request.subject, topic := request.topic }

/-- System prompt passed for the Explainer agent. -/
def ChatUseCase.explainerSystemPrompt : String :=
  "You are an expert teacher who explains concepts clearly and concisely. Focus on breaking down complex ideas into understandable parts."

/-- System prompt passed for the Example Provider agent. -/
def ChatUseCase.exampleProviderSystemPrompt : String :=
  "You are a practical teacher who provides real-world examples and applications. Focus on giving concrete examples that illustrate the concepts being discussed."

/-- One persona call `ChatUseCase.generateAgentResponse`: builds the prompt
from the system prompt and the last message's content, calls the service
(`svc prompt history`) with the Gemini-format history minus its last entry
(`history.slice(0, -1)`), and wraps any failure in a `GeminiApiError` naming
the persona.  On an empty conversation the indexing
`messages[messages.length - 1].content` throws a TypeError before the
service is reached, which the local catch wraps like any other failure.
Also returns how many service calls were made (0 or 1). -/
def ChatUseCase.generateAgentResponse
    (svc : String → List GeminiTurn → Except JsError String)
    (conversation : Conversation) (persona : AgentPersona) (systemPrompt : String)
    (now : Nat) : Except JsError ChatResponse × Nat :=
  match conversation.messages.getLast? with
  | none =>
    (.error (.geminiApi ("Failed to generate response from " ++ persona.str ++ " agent")
      (some (.error "Cannot read properties of undefined"))), 0)
  | some lastMessage =>
    match svc (systemPrompt ++ "\n\nUser\x27s question: " ++ lastMessage.content)
        conversation.getGeminiFormat.dropLast with
    | .ok responseText =>
      (.ok { message := responseText, agentPersona := persona, timestamp := now }, 1)
    | .error e =>
      (.error (.geminiApi ("Failed to generate response from " ++ persona.str ++ " agent")
        (some e)), 1)

/-- Orchestration `ChatUseCase.generateAgentResponses`: tries the Explainer, then the
Example Provider; each failure is caught and logged (dropped), and only when
both fail does it throw the aggregate `GeminiApiError`. -/
def ChatUseCase.generateAgentResponses
    (svc : String → List GeminiTurn → Except JsError String)
    (conversation : Conversation) (now : Nat) :
    Except JsError (List ChatResponse) × Nat :=
  let explainerResult := ChatUseCase.generateAgentResponse svc conversation
    AgentPersona.explainer ChatUseCase.explainerSystemPrompt now
  let exampleResult := ChatUseCase.generateAgentResponse svc conversation
    AgentPersona.example_provider ChatUseCase.exampleProviderSystemPrompt now
  let responses :=
    (match explainerResult.1 with | .ok r => [r] | .error _ => []) ++
    (match exampleResult.1 with | .ok r => [r] | .error _ => [])
  let calls := explainerResult.2 + exampleResult.2
  if responses.length = 0 then
    (.error (.geminiApi "Failed to generate responses from all agents" none), calls)
  else
    (.ok responses, calls)

/-- The body of `ChatUseCase.execute`'s `try` block: validate, restore the
conversation, construct and append the user `Message`, then generate the
agent responses.  Any throw short-circuits with 0 further service calls. -/
def ChatUseCase.executeTry (svc : String → List GeminiTurn → Except JsError String)
    (request : ChatRequest) (now : Nat) : Except JsError (List ChatResponse) × Nat :=
  match ChatUseCase.validateRequest request with
  | .error e => (.error e, 0)
  | .ok _ =>
    match ChatUseCase.createConversation request now with
    | .error e => (.error e, 0)
    | .ok conversation =>
      match Message.create MessageRole.user request.message now none with
      | .error e => (.error e, 0)
      | .ok userMessage =>
        match conversation.addMessage userMessage with
        | (_, some e) => (.error e, 0)
        | (conversation2, none) =>
          ChatUseCase.generateAgentResponses svc conversation2 now

/-- Entry point `ChatUseCase.execute`: the catch rethrows `ValidationError` and
`GeminiApiError` unchanged and wraps every other thrown value in
`new GeminiApiError('Failed to process chat request', error)`. -/
def ChatUseCase.execute (svc : String → List GeminiTurn → Except JsError String)
    (request : ChatRequest) (now : Nat) : Except JsError (List ChatResponse) × Nat :=
  match ChatUseCase.executeTry svc request now with
  | (.ok responses, calls) => (.ok responses, calls)
  | (.error e, calls) =>
    if e.isValidationOrGeminiApi then (.error e, calls)
    else (.error (.geminiApi "Failed to process chat request" (some e)), calls)

/-- Fallback explanation from `orchestrateAgents` (`agentLogic.js`). -/
def explainerFallback : String :=
  "I\x27m sorry, I couldn\x27t generate a clear explanation for that topic right now. Please try rephrasing your question."

/-- Fallback example from `orchestrateAgents` (`agentLogic.js`). -/
def exampleFallback : String :=
  "I\x27m sorry, I couldn\x27t generate a suitable example for that topic right now."

/-- Capture group of `raw.match(/Explainer: ([\s\S]*?)\nExample:/)`.
JS leftmost-match semantics for this pattern: the match anchors at the first
occurrence of the literal `"Explainer: "` in `raw`, and the lazy group then
extends to the first subsequent occurrence of the literal `"\nExample:"`.
If no `"\nExample:"` follows the first `"Explainer: "`, no later anchor can
have one either (occurrences after a later position are also after an
earlier one), so the whole regex fails to match. -/
def explainerMatchGroup (raw : String) : Option String :=
  match findSub "Explainer: ".data raw.data with
  | none => none
  | some p =>
    let rest := raw.data.drop (p + "Explainer: ".length)
    match findSub "\nExample:".data rest with
    | some q => some (String.mk (rest.take q))
    | none => none

/-- Capture group of `raw.match(/Example: ([\s\S]*)/)`: anchors at the first
occurrence of the literal `"Example: "` and greedily captures to the end. -/
def exampleMatchGroup (raw : String) : Option String :=
  match findSub "Example: ".data raw.data with
  | none => none
  | some p => some (String.mk (raw.data.drop (p + "Example: ".length)))

/-- The parsing tail of `orchestrateAgents`: both fields start at their
fallback strings and a field is overwritten only when its regex matched with
a truthy (non-empty) capture group, in which case the captured text is
trimmed. -/
def orchestrateAgentsParse (raw : String) : String × String :=
  (match explainerMatchGroup raw with
   | some g => if g ≠ "" then jsTrim g else explainerFallback
   | none => explainerFallback,
   match exampleMatchGroup raw with
   | some g => if g ≠ "" then jsTrim g else exampleFallback
   | none => exampleFallback)

/-- Legacy `orchestrateAgents` around the single combined API call: on a throw from
the call the error is rewrapped; on success the response is parsed, which
never fails. -/
def orchestrateAgents (apiResult : Except JsError String) :
    Except JsError (String × String) :=
  match apiResult with
  | .error e => .error (.error ("Failed to get orchestrated AI responses: " ++ e.message))
  | .ok raw => .ok (orchestrateAgentsParse raw)

/-- Returns `true` exactly when a use-case result is a thrown `ValidationError`. -/
def resultIsValidationError : Except JsError (List ChatResponse) → Bool
  | .error (.validation _) => true
  | _ => false

/-- A concrete valid message, used to instantiate the theorems below. -/
def sampleMessage : Message :=
  { role := MessageRole.user, content := "x", timestamp := 0, agentPersona := none }

/-- A one-turn conversation. -/
def sampleConversation : Conversation :=
  { messages := [sampleMessage], subject := none, topic := none }

/-- A conversation filled to the 100-message capacity. -/
def fullConversation : Conversation :=
  { messages := List.replicate 100 sampleMessage, subject := none, topic := none }

/-- A string of 5001 copies of the letter a. -/
def longContent5001 : String := String.mk (List.replicate 5001 'a')

/-- A service stub that always succeeds. -/
def svcOk : String → List GeminiTurn → Except JsError String :=
  fun _ _ => .ok "ok"

/-- A service stub that always fails with a plain transient error. -/
def svcDown : String → List GeminiTurn → Except JsError String :=
  fun _ _ => .error (.error "downstream failure")

/-- A service stub failing exactly on the Explainer prompt built from the
one-turn `sampleConversation`, and succeeding otherwise. -/
def svcExplainerFails : String → List GeminiTurn → Except JsError String :=
  fun prompt _ =>
    if prompt = ChatUseCase.explainerSystemPrompt ++ "\n\nUser\x27s question: x" then
      .error (.error "downstream failure")
    else
      .ok "an example"

theorem dropWhile_head?_false (q : α → Bool) (l : List α) :
    ∀ x, (l.dropWhile q).head? = some x → q x = false := by
  induction l with
  | nil => intro x h; simp at h
  | cons a t ih =>
    intro x h
    rw [List.dropWhile_cons] at h
    by_cases ha : q a
    · simp only [ha, if_true] at h
      exact ih x h
    · simp [ha] at h
      subst h
      simpa using ha

theorem dropWhile_eq_self_of_head? (q : α → Bool) (l : List α)
    (h : ∀ x, l.head? = some x → q x = false) : l.dropWhile q = l := by
  cases l with
  | nil => rfl
  | cons a t => simp [List.dropWhile_cons, h a rfl]

theorem dropWhile_dropWhile (q : α → Bool) (l : List α) :
    (l.dropWhile q).dropWhile q = l.dropWhile q :=
  dropWhile_eq_self_of_head? q _ (dropWhile_head?_false q l)

theorem getLast?_dropWhile (q : α → Bool) (l : List α) (h : l.dropWhile q ≠ []) :
    (l.dropWhile q).getLast? = l.getLast? := by
  induction l with
  | nil => simp at h
  | cons a t ih =>
    rw [List.dropWhile_cons] at h ⊢
    by_cases ha : q a
    · simp only [ha, if_true] at h ⊢
      cases t with
      | nil => simp at h
      | cons b u =>
        rw [List.getLast?_cons_cons]
        exact ih h
    · simp [ha]

theorem trimChars_trimChars (l : List Char) : trimChars (trimChars l) = trimChars l := by
  unfold trimChars
  have h1 : ((((l.dropWhile Char.isWhitespace).reverse.dropWhile
      Char.isWhitespace).reverse).dropWhile Char.isWhitespace) =
      ((l.dropWhile Char.isWhitespace).reverse.dropWhile Char.isWhitespace).reverse := by
    apply dropWhile_eq_self_of_head?
    intro x hx
    rw [List.head?_reverse] at hx
    by_cases hBnil :
        (l.dropWhile Char.isWhitespace).reverse.dropWhile Char.isWhitespace = []
    · rw [hBnil] at hx; simp at hx
    · rw [getLast?_dropWhile Char.isWhitespace _ hBnil, List.getLast?_reverse] at hx
      exact dropWhile_head?_false Char.isWhitespace l x hx
  rw [h1, List.reverse_reverse, dropWhile_dropWhile]

theorem jsTrim_jsTrim (s : String) : jsTrim (jsTrim s) = jsTrim s :=
  congrArg String.mk (trimChars_trimChars s.data)

theorem Message.validateContent_eq_ok (content : String)
    (h2 : (jsTrim content).length ≠ 0)
    (h3 : ¬(jsTrim content).length > Message.maxLength) :
    Message.validateContent content = .ok () := by
  have hne : content ≠ "" := fun he => h2 (by rw [he]; rfl)
  unfold Message.validateContent
  rw [if_neg hne, if_neg h2, if_neg h3]

theorem Message.create_isOk (role : MessageRole) (content : String) (t : Nat)
    (p : Option AgentPersona) :
    exceptIsOk (Message.create role content t p) =
      exceptIsOk (Message.validateContent content) := by
  unfold Message.create
  cases Message.validateContent content <;> rfl

/-- C7: `Conversation.addMessage` on a conversation already holding the
maximum of 100 turns fails and that failure leaves the message sequence
unchanged; below the bound the turn is appended at the end; consequently a
conversation within its bound never exceeds it through `addMessage`. -/
theorem Conversation.addMessage_bound (c : Conversation) (m : Message) :
    (c.messages.length ≥ Conversation.maxHistory →
      c.addMessage m =
        (c, some (.error "Conversation history limit of 100 messages reached"))) ∧
    (c.messages.length < Conversation.maxHistory →
      c.addMessage m = ({ c with messages := c.messages ++ [m] }, none)) ∧
    (c.messages.length ≤ Conversation.maxHistory →
      (c.addMessage m).1.messages.length ≤ Conversation.maxHistory) := by
  refine ⟨fun h => ?_, fun h => ?_, fun h => ?_⟩
  · rw [Conversation.addMessage, if_pos h]
  · rw [Conversation.addMessage, if_neg (Nat.not_le.mpr h)]
  · by_cases hge : c.messages.length ≥ Conversation.maxHistory
    · rw [Conversation.addMessage, if_pos hge]
      exact h
    · rw [Conversation.addMessage, if_neg hge]
      simp only [List.length_append, List.length_cons, List.length_nil]
      omega

/-- Witness for C7: the full 100-message conversation rejects a further
message unchanged, and the empty conversation appends it. -/
theorem Conversation.addMessage_bound_witness :
    fullConversation.addMessage sampleMessage =
      (fullConversation,
        some (.error "Conversation history limit of 100 messages reached")) ∧
    (Conversation.mk [] none none).addMessage sampleMessage =
      (Conversation.mk [sampleMessage] none none, none) :=
  ⟨(Conversation.addMessage_bound fullConversation sampleMessage).1 (by decide),
   (Conversation.addMessage_bound (Conversation.mk [] none none) sampleMessage).2.1
     (by decide)⟩

/-- C9 counterexample: `getRecentMessages 0` on a one-turn conversation
returns the whole message list, not the empty sequence of the last 0 turns
the claim requires for every n ≥ 0. -/
theorem Conversation.getRecentMessages_zero_cex :
    sampleConversation.getRecentMessages 0 = [sampleMessage] ∧
    ([sampleMessage] : List Message) ≠ ([] : List Message) :=
  ⟨rfl, by simp⟩

/-- C9 (amended): for every n ≥ 1, `getRecentMessages n` returns the ordered
sequence of the last n turns (all turns when the conversation holds fewer
than n); at n = 0 it returns all turns rather than the empty sequence. -/
theorem Conversation.getRecentMessages_last (c : Conversation) (n : Nat) :
    (1 ≤ n → c.getRecentMessages n = (c.messages.reverse.take n).reverse) ∧
    (1 ≤ n → c.messages.length ≤ n → c.getRecentMessages n = c.messages) ∧
    c.getRecentMessages 0 = c.messages := by
  refine ⟨fun h => ?_, fun h hle => ?_, ?_⟩
  · rw [Conversation.getRecentMessages, if_neg (by omega)]
    rw [← List.rtake_eq_reverse_take_reverse, List.rtake]
  · rw [Conversation.getRecentMessages, if_neg (by omega),
      Nat.sub_eq_zero_of_le hle, List.drop_zero]
  · rfl

/-- Witness for C9 (amended): the last turn of a two-turn conversation. -/
theorem Conversation.getRecentMessages_last_witness :
    (Conversation.mk [sampleMessage, Message.mk MessageRole.assistant "y" 1 none]
        none none).getRecentMessages 1 =
      [Message.mk MessageRole.assistant "y" 1 none] ∧
    sampleConversation.getRecentMessages 5 = [sampleMessage] := by
  constructor
  · have := (Conversation.getRecentMessages_last
      (Conversation.mk [sampleMessage, Message.mk MessageRole.assistant "y" 1 none]
        none none) 1).1 (by decide)
    simpa using this
  · exact (Conversation.getRecentMessages_last sampleConversation 5).2.1
      (by decide) (by decide)

theorem trimChars_replicate (n : Nat) (c : Char) (hc : c.isWhitespace = false) :
    trimChars (List.replicate n c) = List.replicate n c := by
  have hd : ∀ m : Nat,
      (List.replicate m c).dropWhile Char.isWhitespace = List.replicate m c := by
    intro m
    apply dropWhile_eq_self_of_head?
    intro x hx
    cases m with
    | zero => simp at hx
    | succ k =>
      rw [List.replicate_succ, List.head?_cons, Option.some.injEq] at hx
      rw [← hx]
      exact hc
  unfold trimChars
  rw [hd, List.reverse_replicate, hd, List.reverse_replicate]

/-- C6 counterexample: a Turn whose (already trimmed) content has length
5001 is constructed successfully, refuting the claimed 5000-character
maximum. -/
theorem Message.create_accepts_5001_cex :
    Message.create MessageRole.user longContent5001 0 none =
      .ok (Message.mk MessageRole.user longContent5001 0 none) ∧
    longContent5001.length = 5001 := by
  have htrim : jsTrim longContent5001 = longContent5001 :=
    congrArg String.mk (trimChars_replicate 5001 'a' (by decide))
  have hlen : longContent5001.length = 5001 := by
    show (List.replicate 5001 'a').length = 5001
    rw [List.length_replicate]
  refine ⟨?_, hlen⟩
  unfold Message.create
  rw [Message.validateContent_eq_ok longContent5001
    (by rw [htrim, hlen]; omega) (by rw [htrim, hlen]; unfold Message.maxLength; omega)]
  rw [htrim]

/-- C6 (amended): constructing a Turn trims the content of surrounding
whitespace, and construction fails exactly when the trimmed content is empty
or exceeds the 10000-character maximum; every successfully constructed Turn
has content of length between 1 and 10000. -/
theorem Message.create_spec (role : MessageRole) (content : String) (t : Nat)
    (p : Option AgentPersona) :
    (∀ m, Message.create role content t p = .ok m →
      m.content = jsTrim content ∧
      1 ≤ m.content.length ∧ m.content.length ≤ Message.maxLength) ∧
    (exceptIsOk (Message.create role content t p) = false ↔
      (jsTrim content).length = 0 ∨ (jsTrim content).length > Message.maxLength) := by
  constructor
  · intro m hm
    unfold Message.create at hm
    cases hv : Message.validateContent content with
    | error e => rw [hv] at hm; cases hm
    | ok u =>
      rw [hv] at hm
      injection hm with hm
      subst hm
      unfold Message.validateContent at hv
      by_cases h1 : content = ""
      · rw [if_pos h1] at hv; cases hv
      · rw [if_neg h1] at hv
        by_cases h2 : (jsTrim content).length = 0
        · rw [if_pos h2] at hv; cases hv
        · rw [if_neg h2] at hv
          by_cases h3 : (jsTrim content).length > Message.maxLength
          · rw [if_pos h3] at hv; cases hv
          · refine ⟨rfl, ?_, ?_⟩
            · show 1 ≤ (jsTrim content).length
              omega
            · show (jsTrim content).length ≤ Message.maxLength
              omega
  · rw [Message.create_isOk]
    unfold Message.validateContent
    by_cases h1 : content = ""
    · rw [if_pos h1]
      subst h1
      have h0 : (jsTrim "").length = 0 := rfl
      simp [exceptIsOk, h0]
    · rw [if_neg h1]
      by_cases h2 : (jsTrim content).length = 0
      · rw [if_pos h2]
        simp [exceptIsOk, h2]
      · rw [if_neg h2]
        by_cases h3 : (jsTrim content).length > Message.maxLength
        · rw [if_pos h3]
          simp [exceptIsOk, h3]
        · rw [if_neg h3]
          simp only [exceptIsOk, Bool.true_eq_false, false_iff]
          omega

/-- Witness for C6 (amended): whitespace-padded content is trimmed and
accepted. -/
theorem Message.create_spec_witness :
    Message.create MessageRole.user "  hi  " 5 none =
      .ok (Message.mk MessageRole.user "hi" 5 none) ∧
    (Message.mk MessageRole.user "hi" 5 none).content = jsTrim "  hi  " ∧
    1 ≤ (Message.mk MessageRole.user "hi" 5 none).content.length ∧
    (Message.mk MessageRole.user "hi" 5 none).content.length ≤ Message.maxLength :=
  ⟨rfl, (Message.create_spec MessageRole.user "  hi  " 5 none).1
    (Message.mk MessageRole.user "hi" 5 none) rfl⟩

/-- C8: for every successfully constructed Turn,
`Message.fromJSON (Message.toJSON t)` rebuilds a Turn equal to t: same role,
same content, same timestamp instant, and the same optional persona tag. -/
theorem Message.fromJSON_toJSON_roundtrip (role : MessageRole) (content : String)
    (t : Nat) (p : Option AgentPersona) (m : Message) (now : Nat)
    (h : Message.create role content t p = .ok m) :
    Message.fromJSON m.toJSON now = .ok m := by
  have hidem := jsTrim_jsTrim content
  unfold Message.create at h
  cases hv : Message.validateContent content with
  | error e => rw [hv] at h; cases h
  | ok u =>
    rw [hv] at h
    injection h with h
    subst h
    unfold Message.validateContent at hv
    by_cases h1 : content = ""
    · rw [if_pos h1] at hv; cases hv
    · rw [if_neg h1] at hv
      by_cases h2 : (jsTrim content).length = 0
      · rw [if_pos h2] at hv; cases hv
      · rw [if_neg h2] at hv
        by_cases h3 : (jsTrim content).length > Message.maxLength
        · rw [if_pos h3] at hv; cases hv
        · have h2i : (jsTrim (jsTrim content)).length ≠ 0 := by rw [hidem]; exact h2
          have h3i : ¬(jsTrim (jsTrim content)).length > Message.maxLength := by
            rw [hidem]; exact h3
          have hcr : Message.create role (jsTrim content) t p =
              .ok (Message.mk role (jsTrim (jsTrim content)) t p) := by
            unfold Message.create
            rw [Message.validateContent_eq_ok (jsTrim content) h2i h3i]
          rw [hidem] at hcr
          exact hcr

/-- Witness for C8: round-trip of a concrete assistant Turn with persona. -/
theorem Message.fromJSON_toJSON_roundtrip_witness :
    Message.fromJSON
      (Message.toJSON
        (Message.mk MessageRole.assistant "hi" 5 (some AgentPersona.explainer))) 77 =
      .ok (Message.mk MessageRole.assistant "hi" 5 (some AgentPersona.explainer)) :=
  Message.fromJSON_toJSON_roundtrip MessageRole.assistant " hi " 5
    (some AgentPersona.explainer)
    (Message.mk MessageRole.assistant "hi" 5 (some AgentPersona.explainer)) 77 rfl

theorem ChatUseCase.execute_validation_error
    (svc : String → List GeminiTurn → Except JsError String) (request : ChatRequest)
    (now : Nat) (msg : String)
    (h : ChatUseCase.validateRequest request = .error (.validation msg)) :
    ChatUseCase.execute svc request now = (.error (.validation msg), 0) := by
  unfold ChatUseCase.execute ChatUseCase.executeTry
  rw [h]
  rfl

/-- C3: with L the trimmed length of the request message, validation accepts
exactly 1 ≤ L ≤ 5000, and for L = 0 or L > 5000 `execute` fails with a
`ValidationError` having made no remote service call. -/
theorem ChatUseCase.validateRequest_bounds (request : ChatRequest) :
    (1 ≤ (jsTrim request.message).length ∧ (jsTrim request.message).length ≤ 5000 →
      ChatUseCase.validateRequest request = .ok ()) ∧
    ((jsTrim request.message).length = 0 ∨ (jsTrim request.message).length > 5000 →
      ∀ svc now,
        resultIsValidationError (ChatUseCase.execute svc request now).1 = true ∧
        (ChatUseCase.execute svc request now).2 = 0) := by
  constructor
  · rintro ⟨hL1, hL2⟩
    have hm : request.message ≠ "" := by
      intro he
      rw [he] at hL1
      exact absurd hL1 (by decide)
    simp only [ChatUseCase.validateRequest]
    rw [if_neg hm, if_neg (by omega), if_neg (by omega)]
  · intro hL svc now
    have hval : ∃ msg, ChatUseCase.validateRequest request = .error (.validation msg) := by
      simp only [ChatUseCase.validateRequest]
      by_cases hm : request.message = ""
      · exact ⟨_, by rw [if_pos hm]⟩
      · rcases hL with h0 | hgt
        · exact ⟨_, by rw [if_neg hm, if_pos h0]⟩
        · exact ⟨_, by rw [if_neg hm, if_neg (by omega), if_pos hgt]⟩
    obtain ⟨msg, hval⟩ := hval
    rw [ChatUseCase.execute_validation_error svc request now msg hval]
    exact ⟨rfl, rfl⟩

/-- Witness for C3: a 5-character message passes validation; a
whitespace-only message is rejected by `execute` as a `ValidationError` with
zero service calls. -/
theorem ChatUseCase.validateRequest_bounds_witness :
    ChatUseCase.validateRequest (ChatRequest.mk "hello" none none none) = .ok () ∧
    resultIsValidationError
      (ChatUseCase.execute svcOk (ChatRequest.mk " " none none none) 0).1 = true ∧
    (ChatUseCase.execute svcOk (ChatRequest.mk " " none none none) 0).2 = 0 :=
  ⟨(ChatUseCase.validateRequest_bounds (ChatRequest.mk "hello" none none none)).1
      ⟨by decide, by decide⟩,
   (ChatUseCase.validateRequest_bounds (ChatRequest.mk " " none none none)).2
      (Or.inl (by decide)) svcOk 0⟩

/-- C10: every failure of `ChatUseCase.execute` is a `ValidationError` or a
`GeminiApiError`; any other internally raised error is rethrown wrapped in a
`GeminiApiError`, so callers never observe another error kind. -/
theorem ChatUseCase.execute_error_kinds
    (svc : String → List GeminiTurn → Except JsError String) (request : ChatRequest)
    (now : Nat) (e : JsError)
    (h : (ChatUseCase.execute svc request now).1 = .error e) :
    e.isValidationOrGeminiApi = true := by
  unfold ChatUseCase.execute at h
  rcases hT : ChatUseCase.executeTry svc request now with ⟨r, calls⟩
  rw [hT] at h
  cases r with
  | ok v => exact Except.noConfusion h
  | error e0 =>
    have h2 : (if e0.isValidationOrGeminiApi = true then
          ((Except.error e0 : Except JsError (List ChatResponse)), calls)
        else (Except.error (JsError.geminiApi "Failed to process chat request" (some e0)),
          calls)).1 = Except.error e := h
    by_cases hk : e0.isValidationOrGeminiApi = true
    · rw [if_pos hk] at h2
      have h3 : (Except.error e0 : Except JsError (List ChatResponse)) = Except.error e := h2
      injection h3 with h3
      rw [← h3]
      exact hk
    · rw [if_neg hk] at h2
      have h3 : Except.error (JsError.geminiApi "Failed to process chat request" (some e0)) =
          (Except.error e : Except JsError (List ChatResponse)) := h2
      injection h3 with h3
      rw [← h3]
      rfl

/-- Witness for C10: an invalid history entry makes `Message.fromJSON` throw
a plain `Error` during restoration; `execute` surfaces it wrapped in a
`GeminiApiError`. -/
theorem ChatUseCase.execute_error_kinds_witness :
    (ChatUseCase.execute svcOk
      (ChatRequest.mk "hi" (some [MessageJSON.mk MessageRole.user "" (some 0) none])
        none none) 0).1 =
      .error (.geminiApi "Failed to process chat request"
        (some (.error "Message content must be a non-empty string"))) ∧
    (JsError.geminiApi "Failed to process chat request"
      (some (.error "Message content must be a non-empty string"))).isValidationOrGeminiApi
      = true :=
  ⟨rfl,
   ChatUseCase.execute_error_kinds svcOk
     (ChatRequest.mk "hi" (some [MessageJSON.mk MessageRole.user "" (some 0) none])
       none none) 0
     (.geminiApi "Failed to process chat request"
       (some (.error "Message content must be a non-empty string"))) rfl⟩

theorem ChatUseCase.generateAgentResponse_ok_persona
    (svc : String → List GeminiTurn → Except JsError String) (c : Conversation)
    (persona : AgentPersona) (sp : String) (now : Nat) (b : ChatResponse) (n : Nat)
    (h : ChatUseCase.generateAgentResponse svc c persona sp now = (.ok b, n)) :
    b.agentPersona = persona := by
  unfold ChatUseCase.generateAgentResponse at h
  split at h
  · have h1 : (Except.error (JsError.geminiApi
        ("Failed to generate response from " ++ persona.str ++ " agent")
        (some (.error "Cannot read properties of undefined"))) :
        Except JsError ChatResponse) = Except.ok b := congrArg Prod.fst h
    exact Except.noConfusion h1
  · split at h
    · rename_i lastMessage responseText hs
      have h1 : (Except.ok (ChatResponse.mk responseText persona now) :
          Except JsError ChatResponse) = Except.ok b := congrArg Prod.fst h
      injection h1 with h1
      rw [← h1]
    · rename_i lastMessage e hs
      have h1 : (Except.error (JsError.geminiApi
          ("Failed to generate response from " ++ persona.str ++ " agent") (some e)) :
          Except JsError ChatResponse) = Except.ok b := congrArg Prod.fst h
      exact Except.noConfusion h1

/-- C2: if the explainer persona call fails and the example_provider call
succeeds, `generateAgentResponses` returns exactly one response, tagged
example_provider; if both calls fail it fails with the aggregate
`GeminiApiError` and never returns an empty list. -/
theorem ChatUseCase.generateAgentResponses_failure_isolation
    (svc : String → List GeminiTurn → Except JsError String)
    (conversation : Conversation) (now : Nat) :
    (∀ e b n1 n2,
      ChatUseCase.generateAgentResponse svc conversation AgentPersona.explainer
        ChatUseCase.explainerSystemPrompt now = (.error e, n1) →
      ChatUseCase.generateAgentResponse svc conversation AgentPersona.example_provider
        ChatUseCase.exampleProviderSystemPrompt now = (.ok b, n2) →
      (ChatUseCase.generateAgentResponses svc conversation now).1 = .ok [b] ∧
      b.agentPersona = AgentPersona.example_provider) ∧
    (∀ e1 e2 n1 n2,
      ChatUseCase.generateAgentResponse svc conversation AgentPersona.explainer
        ChatUseCase.explainerSystemPrompt now = (.error e1, n1) →
      ChatUseCase.generateAgentResponse svc conversation AgentPersona.example_provider
        ChatUseCase.exampleProviderSystemPrompt now = (.error e2, n2) →
      ChatUseCase.generateAgentResponses svc conversation now =
        (.error (.geminiApi "Failed to generate responses from all agents" none),
          n1 + n2)) := by
  constructor
  · intro e b n1 n2 h1 h2
    refine ⟨?_, ChatUseCase.generateAgentResponse_ok_persona svc conversation
      AgentPersona.example_provider ChatUseCase.exampleProviderSystemPrompt now b n2 h2⟩
    unfold ChatUseCase.generateAgentResponses
    rw [h1, h2]
    rfl
  · intro e1 e2 n1 n2 h1 h2
    unfold ChatUseCase.generateAgentResponses
    rw [h1, h2]
    rfl

/-- Witness for C2: with the one-turn conversation, a service failing on the
Explainer prompt but succeeding on the Example Provider prompt yields exactly
the example response; a service failing on both prompts yields the aggregate
error. -/
theorem ChatUseCase.generateAgentResponses_failure_isolation_witness :
    (ChatUseCase.generateAgentResponses svcExplainerFails sampleConversation 7).1 =
      .ok [ChatResponse.mk "an example" AgentPersona.example_provider 7] ∧
    (ChatResponse.mk "an example" AgentPersona.example_provider 7).agentPersona =
      AgentPersona.example_provider ∧
    ChatUseCase.generateAgentResponses svcDown sampleConversation 7 =
      (.error (.geminiApi "Failed to generate responses from all agents" none), 1 + 1) := by
  have hpart := (ChatUseCase.generateAgentResponses_failure_isolation svcExplainerFails
    sampleConversation 7).1
    (.geminiApi "Failed to generate response from explainer agent"
      (some (.error "downstream failure")))
    (ChatResponse.mk "an example" AgentPersona.example_provider 7) 1 1 rfl rfl
  exact ⟨hpart.1, hpart.2,
    (ChatUseCase.generateAgentResponses_failure_isolation svcDown sampleConversation 7).2
      (.geminiApi "Failed to generate response from explainer agent"
        (some (.error "downstream failure")))
      (.geminiApi "Failed to generate response from example_provider agent"
        (some (.error "downstream failure"))) 1 1 rfl rfl⟩

/-- C5: whenever both persona calls succeed, `generateAgentResponses`
returns exactly two responses in the fixed persona-definition order
[explainer, example_provider]. -/
theorem ChatUseCase.generateAgentResponses_order
    (svc : String → List GeminiTurn → Except JsError String)
    (conversation : Conversation) (now : Nat) :
    ∀ a b n1 n2,
      ChatUseCase.generateAgentResponse svc conversation AgentPersona.explainer
        ChatUseCase.explainerSystemPrompt now = (.ok a, n1) →
      ChatUseCase.generateAgentResponse svc conversation AgentPersona.example_provider
        ChatUseCase.exampleProviderSystemPrompt now = (.ok b, n2) →
      (ChatUseCase.generateAgentResponses svc conversation now).1 = .ok [a, b] ∧
      a.agentPersona = AgentPersona.explainer ∧
      b.agentPersona = AgentPersona.example_provider := by
  intro a b n1 n2 h1 h2
  refine ⟨?_,
    ChatUseCase.generateAgentResponse_ok_persona svc conversation
      AgentPersona.explainer ChatUseCase.explainerSystemPrompt now a n1 h1,
    ChatUseCase.generateAgentResponse_ok_persona svc conversation
      AgentPersona.example_provider ChatUseCase.exampleProviderSystemPrompt now b n2 h2⟩
  unfold ChatUseCase.generateAgentResponses
  rw [h1, h2]
  rfl

/-- Witness for C5: an always-succeeding service yields the explainer
response first and the example_provider response second. -/
theorem ChatUseCase.generateAgentResponses_order_witness :
    (ChatUseCase.generateAgentResponses svcOk sampleConversation 7).1 =
      .ok [ChatResponse.mk "ok" AgentPersona.explainer 7,
           ChatResponse.mk "ok" AgentPersona.example_provider 7] ∧
    (ChatResponse.mk "ok" AgentPersona.explainer 7).agentPersona =
      AgentPersona.explainer ∧
    (ChatResponse.mk "ok" AgentPersona.example_provider 7).agentPersona =
      AgentPersona.example_provider :=
  ChatUseCase.generateAgentResponses_order svcOk sampleConversation 7
    (ChatResponse.mk "ok" AgentPersona.explainer 7)
    (ChatResponse.mk "ok" AgentPersona.example_provider 7) 1 1 rfl rfl

theorem GeminiService.generateResponseAux_error_step
    (api : Nat → Except JsError String) (fuel attempt : Nat) (last : Option JsError)
    (e : JsError) (h : api attempt = .error e)
    (hn : GeminiService.isNonRetryableError e = false) :
    GeminiService.generateResponseAux api (fuel + 1) attempt last =
      ((GeminiService.generateResponseAux api fuel (attempt + 1) (some e)).1,
       (GeminiService.generateResponseAux api fuel (attempt + 1) (some e)).2 + 1) := by
  simp only [GeminiService.generateResponseAux]
  rw [h]
  split
  · rename_i text heq
    exact Except.noConfusion heq
  · rename_i err heq
    injection heq with heq
    subst heq
    rw [hn]
    rfl

/-- C1: `GeminiService.generateResponse` makes exactly 3 attempts on
persistent generic transient failures and then fails with a `GeminiApiError`
wrapping the last underlying error; for every error whose message contains a
non-retryable marker (case-insensitively one of "api key", "authentication",
"unauthorized", "quota", "billing", "invalid") it fails immediately with the
distinguished non-retryable error after a single attempt. -/
theorem GeminiService.generateResponse_retry_policy
    (api api2 : Nat → Except JsError String) :
    (∀ e1 e2 e3, api 1 = .error e1 → api 2 = .error e2 → api 3 = .error e3 →
      GeminiService.isNonRetryableError e1 = false →
      GeminiService.isNonRetryableError e2 = false →
      GeminiService.isNonRetryableError e3 = false →
      GeminiService.generateResponse api =
        (.error (.geminiApi
          ("Failed to generate response after 3 attempts: " ++
            (if e3.message = "" then "Unknown error" else e3.message))
          (some e3)), 3)) ∧
    (∀ e, api2 1 = .error e →
      (∃ pattern ∈ GeminiService.nonRetryablePatterns,
        strIncludes (jsToLower e.message) pattern = true) →
      GeminiService.generateResponse api2 =
        (.error (.geminiApi ("Non-retryable error: " ++ e.message) (some e)), 1)) := by
  constructor
  · intro e1 e2 e3 h1 h2 h3 hn1 hn2 hn3
    have s1 := GeminiService.generateResponseAux_error_step api 2 1 none e1 h1 hn1
    have s2 := GeminiService.generateResponseAux_error_step api 1 2 (some e1) e2 h2 hn2
    have s3 := GeminiService.generateResponseAux_error_step api 0 3 (some e2) e3 h3 hn3
    show GeminiService.generateResponseAux api (2 + 1) 1 none = _
    rw [s1, s2, s3]
    rfl
  · intro e h hp
    have hn : GeminiService.isNonRetryableError e = true := by
      unfold GeminiService.isNonRetryableError
      rw [List.any_eq_true]
      obtain ⟨pat, hmem, hinc⟩ := hp
      exact ⟨pat, hmem, hinc⟩
    show GeminiService.generateResponseAux api2 (2 + 1) 1 none = _
    unfold GeminiService.generateResponseAux
    rw [h]
    split
    · rename_i text heq
      exact Except.noConfusion heq
    · rename_i err heq
      injection heq with heq
      subst heq
      rw [hn]
      rfl

/-- Witness for C1: a persistent "boom" failure is retried to exhaustion (3
attempts), while a "Quota exceeded" failure aborts after one attempt. -/
theorem GeminiService.generateResponse_retry_policy_witness :
    GeminiService.generateResponse (fun _ => .error (.error "boom")) =
      (.error (.geminiApi
        ("Failed to generate response after 3 attempts: " ++
          (if (JsError.error "boom").message = "" then "Unknown error"
           else (JsError.error "boom").message))
        (some (.error "boom"))), 3) ∧
    GeminiService.generateResponse (fun _ => .error (.error "Quota exceeded")) =
      (.error (.geminiApi ("Non-retryable error: " ++ (JsError.error "Quota exceeded").message)
        (some (.error "Quota exceeded"))), 1) :=
  ⟨(GeminiService.generateResponse_retry_policy (fun _ => .error (.error "boom"))
      (fun _ => .error (.error "Quota exceeded"))).1
    (.error "boom") (.error "boom") (.error "boom") rfl rfl rfl
    (by decide) (by decide) (by decide),
   (GeminiService.generateResponse_retry_policy (fun _ => .error (.error "boom"))
      (fun _ => .error (.error "Quota exceeded"))).2
    (.error "Quota exceeded") rfl ⟨"quota", by decide, by decide⟩⟩

/-- C4 counterexample: the parser's marker is the literal `Explainer:`, not
`Explanation:`, so on the claimed input the explanation field is the fallback
message rather than X; moreover a whitespace-only capture group is trimmed to
the empty string instead of being replaced by the fallback. -/
theorem orchestrateAgentsParse_cex :
    orchestrateAgentsParse "Explanation: X\nExample: Y" = (explainerFallback, "Y") ∧
    explainerFallback ≠ "X" ∧
    (orchestrateAgentsParse "Explainer:  \nExample: Y").1 = "" ∧
    ("" : String) ≠ explainerFallback := by
  refine ⟨rfl, by decide, rfl, by decide⟩

/-- C4 (amended): with the marker `Explainer:`, parsing
"Explainer: X\nExample: Y" yields X and Y; parsing "Example: Y only" yields
the fallback explanation and "Y only"; whenever a marker is absent or its
capture group is the empty string, that field is the fixed fallback message,
so the parser always returns both fields and never fails (a whitespace-only
capture group, however, is trimmed to the empty string). -/
theorem orchestrateAgentsParse_spec :
    orchestrateAgentsParse "Explainer: X\nExample: Y" = ("X", "Y") ∧
    orchestrateAgentsParse "Example: Y only" = (explainerFallback, "Y only") ∧
    (∀ raw, explainerMatchGroup raw = none ∨ explainerMatchGroup raw = some "" →
      (orchestrateAgentsParse raw).1 = explainerFallback) ∧
    (∀ raw, exampleMatchGroup raw = none ∨ exampleMatchGroup raw = some "" →
      (orchestrateAgentsParse raw).2 = exampleFallback) := by
  refine ⟨rfl, rfl, ?_, ?_⟩
  · intro raw h
    unfold orchestrateAgentsParse
    rcases h with h | h
    · rw [h]
    · rw [h]
      rfl
  · intro raw h
    unfold orchestrateAgentsParse
    rcases h with h | h
    · rw [h]
    · rw [h]
      rfl

/-- Witness for C4 (amended): an input without any marker parses to the two
fallback messages. -/
theorem orchestrateAgentsParse_spec_witness :
    (orchestrateAgentsParse "no markers here").1 = explainerFallback ∧
    (orchestrateAgentsParse "no markers here").2 = exampleFallback :=
  ⟨orchestrateAgentsParse_spec.2.2.1 "no markers here" (Or.inl rfl),
   orchestrateAgentsParse_spec.2.2.2 "no markers here" (Or.inl rfl)⟩

end EduAgent
